import Mathlib

/-
Verification of the unified error-handling core of the grr-plugin crate
(src/error.rs), shallowly embedded in Lean 4.

External failure values (std::io::Error, tonic::transport::Error,
std::net::AddrParseError, http::uri::InvalidUri, tokio mpsc SendError) are
opaque to the source: the source only formats them with the Debug or Display
formatter, so we model each one as a record of the strings those formatters
produce.  Everything else (the Error enum, its Display impl, its derived
Debug, the Into<Status> conversion, the From conversions, and the two
escalation macros) is translated directly from src/error.rs.
-/

namespace GrrPlugin

/-- model of the tonic gRPC status code set; only the codes this core can
produce or compare against are needed, but we keep several so that
"the code is unknown" is a non-trivial statement. -/
inductive StatusCode where
  | ok
  | unknown
  | invalidArgument
  | internal
  deriving DecidableEq, Repr

/-- model of tonic Status: a wire-level code plus a message string. -/
structure Status where
  code : StatusCode
  message : String
  deriving DecidableEq, Repr

/-- model of tonic Status::unknown(msg): code Unknown with the given message. -/
def Status.unknown (msg : String) : Status :=
  ⟨StatusCode.unknown, msg⟩

/-- opaque model of std::io::Error: the source only ever Debug-formats it. -/
structure IoError where
  debugStr : String
  deriving DecidableEq, Repr

/-- opaque model of tonic::transport::Error: the source only Debug-formats it. -/
structure TonicError where
  debugStr : String
  deriving DecidableEq, Repr

/-- opaque model of std::net::AddrParseError: the source only Debug-formats it. -/
structure AddrParseError where
  debugStr : String
  deriving DecidableEq, Repr

/-- opaque model of http::uri::InvalidUri: the source formats it both with
Debug (in the derived Debug of Error) and with Display (in the Display impl),
so both rendered strings are carried. -/
structure InvalidUri where
  debugStr : String
  displayStr : String
  deriving DecidableEq, Repr

/-- model of tokio::sync::mpsc::error::SendError<T>: the failed send returns
the un-sent payload to the caller. -/
structure SendError (T : Type) where
  payload : T

/-- Debug formatting of tokio's SendError<T>: tokio's impl is
`f.debug_struct("SendError").finish_non_exhaustive()`, which prints the
fixed text `SendError \x7b .. \x7d` for every payload type and value — it
never mentions the payload, its type name, or the word mpsc. -/
def SendError.debugStr {T : Type} (_ : SendError T) : String :=
  "SendError \x7b .. \x7d"

/-- the unified Error enum of src/error.rs, one constructor per variant. -/
inductive Error where
  | NoTCPPortAvailable
  | GRPCHandshakeMagicCookieValueMismatch
  | ServiceIdDoesNotExist (serviceId : Nat)
  | Io (e : IoError)
  | Generic (s : String)
  | TonicTransport (e : TonicError)
  | AddrParser (e : AddrParseError)
  | Send (s : String)
  | InvalidUri (e : GrrPlugin.InvalidUri)
  | NetworkTypeUnknown (network : String)
  deriving DecidableEq, Repr

/-- the Display impl for Error, arm by arm from src/error.rs.  Note the
InvalidUri arm uses the Display formatter of the wrapped value (the source
writes `\x7b\x7d`), while Io, TonicTransport and AddrParser use the Debug
formatter (the source writes `\x7b:?\x7d`). -/
def Error.display : Error → String
  | .NoTCPPortAvailable =>
      "No ports were available to bind the plugin\x27s gRPC server to."
  | .GRPCHandshakeMagicCookieValueMismatch =>
      "This executable is meant to be a go-plugin to other processes. Do not run this directly. The Magic Handshake failed."
  | .ServiceIdDoesNotExist serviceId =>
      "The requested ServiceId " ++ toString serviceId ++ " does not exist and timed out waiting for it."
  | .Generic s => s
  | .Io e => "Error with IO: " ++ e.debugStr
  | .TonicTransport e => "Error with tonic (gRPC) transport: " ++ e.debugStr
  | .AddrParser e => "Error parsing string into a network address: " ++ e.debugStr
  | .Send s => "Error sending on a mpsc channel: " ++ s
  | .InvalidUri e => "Invalid Uri: " ++ e.displayStr
  | .NetworkTypeUnknown network => "Service endpoint type unknown: " ++ network

/-- Debug escape of one character, as Rust's Debug for str escapes it
(quote, backslash and the common control characters; other characters are
kept as they are, which is faithful for all the ASCII text this crate
produces). -/
def rustCharEscapeDebug (c : Char) : String :=
  if c = '\"' then "\\\""
  else if c = '\\' then "\\\\"
  else if c = '\n' then "\\n"
  else if c = '\t' then "\\t"
  else if c = '\r' then "\\r"
  else String.singleton c

/-- Debug formatting of a Rust String: the text between double quotes with
Debug escapes. -/
def rustStrDebug (s : String) : String :=
  "\"" ++ String.join (s.toList.map rustCharEscapeDebug) ++ "\""

/-- the derived Debug formatting of Error (`derive(Debug)` in the source):
the variant name, with a parenthesised Debug rendering of the payload for
the tuple variants. -/
def Error.debugStr : Error → String
  | .NoTCPPortAvailable => "NoTCPPortAvailable"
  | .GRPCHandshakeMagicCookieValueMismatch => "GRPCHandshakeMagicCookieValueMismatch"
  | .ServiceIdDoesNotExist serviceId => "ServiceIdDoesNotExist(" ++ toString serviceId ++ ")"
  | .Io e => "Io(" ++ e.debugStr ++ ")"
  | .Generic s => "Generic(" ++ rustStrDebug s ++ ")"
  | .TonicTransport e => "TonicTransport(" ++ e.debugStr ++ ")"
  | .AddrParser e => "AddrParser(" ++ e.debugStr ++ ")"
  | .Send s => "Send(" ++ rustStrDebug s ++ ")"
  | .InvalidUri e => "InvalidUri(" ++ e.debugStr ++ ")"
  | .NetworkTypeUnknown network => "NetworkTypeUnknown(" ++ rustStrDebug network ++ ")"

/-- the `impl Into<Status> for Error`: `Status::unknown(format!("\x7b:?\x7d", self))`. -/
def Error.intoStatus (e : Error) : Status :=
  Status.unknown (Error.debugStr e)

/-- `impl From<std::io::Error> for Error`. -/
def Error.fromIo (e : IoError) : Error :=
  Error.Io e

/-- `impl From<TonicError> for Error`. -/
def Error.fromTonicError (e : TonicError) : Error :=
  Error.TonicTransport e

/-- `impl From<std::net::AddrParseError> for Error`. -/
def Error.fromAddrParseError (e : AddrParseError) : Error :=
  Error.AddrParser e

/-- `impl<T> From<SendError<T>> for Error`: the payload is ignored (the
binder is `_err` in the source) and only `std::any::type_name::<T>()` is
interpolated into the message.  The type name is a per-type constant in
Rust; here it is the `tn` parameter, standing for the name the compiler
associates with `T`.  No Display or Debug capability of `T` is required:
`T` is an arbitrary Lean type with no instance constraints. -/
def Error.fromSendError {T : Type} (tn : String) (_e : SendError T) : Error :=
  Error.Send ("unable to send " ++ tn ++ " on a mpsc channel")

/-- `impl From<InvalidUri> for Error`. -/
def Error.fromInvalidUri (e : GrrPlugin.InvalidUri) : Error :=
  Error.InvalidUri e

/-- severity levels of the log crate's sink; the macros only use error. -/
inductive LogLevel where
  | error
  | warn
  | info
  deriving DecidableEq, Repr

/-- one call to the logging sink: a severity and the formatted line. -/
structure LogEntry where
  level : LogLevel
  msg : String
  deriving DecidableEq, Repr

/-- the call-site context the escalation macros capture: `function!()`,
`file!()` and `line!()`. -/
structure CallSite where
  functionName : String
  file : String
  line : Nat
  deriving DecidableEq, Repr

/-- the log line both macros emit: the source format string is
`"\x7b\x7d,(\x7b\x7d:\x7b\x7d), \x7b:?\x7d"` applied to function name, file,
line and the Debug rendering of the failure. -/
def escalateLogLine (cs : CallSite) (errDebug : String) : String :=
  cs.functionName ++ ",(" ++ cs.file ++ ":" ++ toString cs.line ++ "), " ++ errDebug

/-- result of expanding an escalation macro at a call site: either the
enclosing function returns early with value `r` (so no code after the macro
runs), or control proceeds with the unwrapped success payload. -/
inductive Outcome (ρ α : Type) where
  | earlyReturn (r : ρ)
  | proceed (a : α)
  deriving DecidableEq, Repr

/-- the `log_and_escalate!` macro.  `dbg` is the Debug formatter of the
failure type and `conv` is the `Error::from` conversion applicable to it.
On failure it logs one line at error severity and makes the enclosing
function return `Err(Error::from(err))`; on success it yields the payload
and logs nothing. -/
def log_and_escalate {ε α : Type} (dbg : ε → String) (conv : ε → Error)
    (cs : CallSite) : Except ε α → Outcome (Except Error α) α × List LogEntry
  | .error err =>
      (Outcome.earlyReturn (Except.error (conv err)),
       [⟨LogLevel.error, escalateLogLine cs (dbg err)⟩])
  | .ok o => (Outcome.proceed o, [])

/-- the `log_and_escalate_status!` macro.  On failure it logs one line at
error severity and makes the enclosing function return
`Err(tonic::Status::unknown(format!("\x7b:?\x7d", err)))` — the raw failure
is Debug-formatted directly, with no Error value constructed; on success it
yields the payload and logs nothing. -/
def log_and_escalate_status {ε α : Type} (dbg : ε → String)
    (cs : CallSite) : Except ε α → Outcome (Except Status α) α × List LogEntry
  | .error err =>
      (Outcome.earlyReturn (Except.error (Status.unknown (dbg err))),
       [⟨LogLevel.error, escalateLogLine cs (dbg err)⟩])
  | .ok o => (Outcome.proceed o, [])

/-- C1: converting any unified Error into an RPC status yields the generic
unknown code, and the status message equals the Debug-formatted Error. -/
theorem intoStatus_code_unknown_message_debug (e : Error) :
    (Error.intoStatus e).code = StatusCode.unknown ∧
    (Error.intoStatus e).message = Error.debugStr e :=
  ⟨rfl, rfl⟩

/-- C8: ServiceIdDoesNotExist(42) renders exactly the fixed sentence with 42
interpolated, and in general the payload is interpolated into that sentence. -/
theorem serviceIdDoesNotExist_display :
    Error.display (Error.ServiceIdDoesNotExist 42) =
      "The requested ServiceId 42 does not exist and timed out waiting for it." ∧
    ∀ serviceId : Nat,
      Error.display (Error.ServiceIdDoesNotExist serviceId) =
        "The requested ServiceId " ++ toString serviceId ++
          " does not exist and timed out waiting for it." :=
  ⟨rfl, fun _ => rfl⟩

/-- C10: the Generic variant renders its carried string verbatim with no
label or prefix; in particular Generic of the empty string renders empty. -/
theorem generic_display_verbatim :
    (∀ s : String, Error.display (Error.Generic s) = s) ∧
    Error.display (Error.Generic "") = "" :=
  ⟨fun _ => rfl, rfl⟩

/-- C2: on a failing expression, log_and_escalate invokes the logging sink
exactly once with the line `<function>,(<file>:<line>), <debug-of-failure>`
at error severity, makes the enclosing function return early (so no code
after the invocation runs), and the returned failure equals the result of
the applicable Error::from conversion applied to the failure. -/
theorem log_and_escalate_on_failure {ε α : Type} (dbg : ε → String)
    (conv : ε → Error) (cs : CallSite) (err : ε) :
    log_and_escalate dbg conv cs (Except.error err : Except ε α) =
      (Outcome.earlyReturn (Except.error (conv err)),
       [⟨LogLevel.error,
         cs.functionName ++ ",(" ++ cs.file ++ ":" ++ toString cs.line ++ "), " ++
           dbg err⟩]) :=
  rfl

/-- C3: on a succeeding expression, each of the two escalation macros logs
nothing, does not return early, and yields the success payload unchanged. -/
theorem escalate_macros_on_success {ε α : Type} (dbg : ε → String)
    (conv : ε → Error) (cs : CallSite) (o : α) :
    log_and_escalate dbg conv cs (Except.ok o : Except ε α) =
      (Outcome.proceed o, []) ∧
    log_and_escalate_status dbg cs (Except.ok o : Except ε α) =
      (Outcome.proceed o, []) :=
  ⟨rfl, rfl⟩

/-- C7: the channel-send conversion is defined for an arbitrary payload type
with no Display or Debug requirement, discards the payload, and produces the
Send variant recording only the payload type name in the fixed message; any
two send failures of the same payload type therefore convert equally. -/
theorem fromSendError_type_name_only {T : Type} (tn : String)
    (e₁ e₂ : SendError T) :
    Error.fromSendError tn e₁ =
      Error.Send ("unable to send " ++ tn ++ " on a mpsc channel") ∧
    Error.fromSendError tn e₁ = Error.fromSendError tn e₂ :=
  ⟨rfl, rfl⟩

/-- C4 counterexample: a channel-send failure escalated through
log_and_escalate_status produces a status whose message is the Debug
rendering of the raw SendError, which contains neither the word mpsc nor the
payload type name.  Concretely, for a send failure of payload 5 at a sample
call site, the returned status message is `SendError \x7b .. \x7d` and mpsc
does not occur in it. -/
theorem log_and_escalate_status_send_lacks_mpsc :
    (log_and_escalate_status SendError.debugStr ⟨"grr_plugin::serve", "src/lib.rs", 40⟩
        (Except.error (⟨5⟩ : SendError Nat) : Except (SendError Nat) Unit)).1 =
      Outcome.earlyReturn
        (Except.error ⟨StatusCode.unknown, "SendError \x7b .. \x7d"⟩) ∧
    ¬ ("mpsc".toList <:+: "SendError \x7b .. \x7d".toList) ∧
    ¬ ("Nat".toList <:+: "SendError \x7b .. \x7d".toList) :=
  ⟨rfl, by decide, by decide⟩

/-- C4 amended: on a failing expression, log_and_escalate_status makes the
enclosing function return early with a status whose code is unknown and
whose message is the Debug rendering of the raw failure, constructing no
unified Error; for a channel-send failure that Debug rendering is the fixed
text `SendError \x7b .. \x7d`, which names the SendError type but neither
mpsc nor the payload type. -/
theorem log_and_escalate_status_on_failure :
    (∀ (ε α : Type) (dbg : ε → String) (cs : CallSite) (err : ε),
      log_and_escalate_status dbg cs (Except.error err : Except ε α) =
        (Outcome.earlyReturn (Except.error ⟨StatusCode.unknown, dbg err⟩),
         [⟨LogLevel.error, escalateLogLine cs (dbg err)⟩])) ∧
    (∀ (T : Type) (e : SendError T), SendError.debugStr e = "SendError \x7b .. \x7d") ∧
    ("SendError".toList <:+: "SendError \x7b .. \x7d".toList) :=
  ⟨fun _ _ _ _ _ => rfl, fun _ _ => rfl, by decide⟩

/-- C5 counterexample: the InvalidUri variant renders the wrapped failure
with its Display formatter, not its Debug formatter.  For a concrete
InvalidUri value carrying the http crate's strings (Debug
`InvalidUri(InvalidUriChar)`, Display `invalid uri character`), the rendered
Error is `Invalid Uri: invalid uri character`, which is not the label
followed by the Debug representation, and the Debug representation does not
occur in it at all. -/
theorem display_invalidUri_uses_display_not_debug :
    Error.display (Error.InvalidUri ⟨"InvalidUri(InvalidUriChar)", "invalid uri character"⟩) =
      "Invalid Uri: invalid uri character" ∧
    Error.display (Error.InvalidUri ⟨"InvalidUri(InvalidUriChar)", "invalid uri character"⟩) ≠
      "Invalid Uri: " ++ "InvalidUri(InvalidUriChar)" ∧
    ¬ ("InvalidUri(InvalidUriChar)".toList <:+:
        (Error.display (Error.InvalidUri
          ⟨"InvalidUri(InvalidUriChar)", "invalid uri character"⟩)).toList) :=
  ⟨rfl, by decide, by decide⟩

/-- C5 amended: the Io, TonicTransport and AddrParser variants render the
wrapped failure's Debug representation prefixed with their domain label,
while the InvalidUri variant renders the wrapped failure's Display
representation prefixed with its label. -/
theorem wrapped_variants_display_spec :
    (∀ e : IoError, Error.display (Error.Io e) = "Error with IO: " ++ e.debugStr) ∧
    (∀ e : TonicError,
      Error.display (Error.TonicTransport e) =
        "Error with tonic (gRPC) transport: " ++ e.debugStr) ∧
    (∀ e : AddrParseError,
      Error.display (Error.AddrParser e) =
        "Error parsing string into a network address: " ++ e.debugStr) ∧
    (∀ e : GrrPlugin.InvalidUri,
      Error.display (Error.InvalidUri e) = "Invalid Uri: " ++ e.displayStr) :=
  ⟨fun _ => rfl, fun _ => rfl, fun _ => rfl, fun _ => rfl⟩

/-- C6 counterexample: rendering is not non-empty for every variant and
payload: the Generic variant renders its payload verbatim, so Generic of the
empty string renders to the empty string. -/
theorem display_not_always_nonempty :
    ¬ (∀ e : Error, Error.display e ≠ "") :=
  fun h => h (Error.Generic "") rfl

/-- helper: a string append whose left part has positive length is not the
empty string. -/
lemma append_ne_empty_left (a b : String) (ha : 0 < a.length) : a ++ b ≠ "" := by
  intro h
  have h0 : (a ++ b).length = 0 := h ▸ rfl
  rw [String.length_append] at h0
  omega

/-- C6 amended: rendering is deterministic (equal Error values render
equally), and the rendered string is non-empty for every variant except
Generic, which renders its payload verbatim and so is empty exactly when the
payload is. -/
theorem display_deterministic_nonempty_except_generic :
    (∀ e₁ e₂ : Error, e₁ = e₂ → Error.display e₁ = Error.display e₂) ∧
    (∀ e : Error,
      Error.display e ≠ "" ∨ ∃ s, e = Error.Generic s ∧ Error.display e = s) := by
  refine ⟨fun e₁ e₂ h => h ▸ rfl, fun e => ?_⟩
  cases e with
  | Generic s => exact Or.inr ⟨s, rfl, rfl⟩
  | NoTCPPortAvailable => exact Or.inl (by decide)
  | GRPCHandshakeMagicCookieValueMismatch => exact Or.inl (by decide)
  | ServiceIdDoesNotExist serviceId =>
      exact Or.inl (append_ne_empty_left
        ("The requested ServiceId " ++ toString serviceId)
        " does not exist and timed out waiting for it."
        (by rw [String.length_append]
            exact Nat.lt_of_lt_of_le (by decide) (Nat.le_add_right _ _)))
  | Io e =>
      exact Or.inl (append_ne_empty_left "Error with IO: " e.debugStr (by decide))
  | TonicTransport e =>
      exact Or.inl (append_ne_empty_left "Error with tonic (gRPC) transport: "
        e.debugStr (by decide))
  | AddrParser e =>
      exact Or.inl (append_ne_empty_left "Error parsing string into a network address: "
        e.debugStr (by decide))
  | Send s =>
      exact Or.inl (append_ne_empty_left "Error sending on a mpsc channel: " s (by decide))
  | InvalidUri e =>
      exact Or.inl (append_ne_empty_left "Invalid Uri: " e.displayStr (by decide))
  | NetworkTypeUnknown network =>
      exact Or.inl (append_ne_empty_left "Service endpoint type unknown: " network
        (by decide))

/-- C6 amended, witness: the determinism clause applied at a concrete Error
value, and the non-emptiness clause at another. -/
theorem display_deterministic_nonempty_witness :
    Error.display (Error.Send "x") = Error.display (Error.Send "x") ∧
    (Error.display Error.NoTCPPortAvailable ≠ "" ∨
      ∃ s, Error.NoTCPPortAvailable = Error.Generic s ∧
        Error.display Error.NoTCPPortAvailable = s) :=
  ⟨display_deterministic_nonempty_except_generic.1 _ _ rfl,
   display_deterministic_nonempty_except_generic.2 Error.NoTCPPortAvailable⟩

end GrrPlugin
